import Mathlib

/-!
Shallow embedding of the dataset generator in src/Create_Data.py.

The script builds fixed reference tables, draws n records by random
sampling, computes derived numeric fields, applies a positional
missingness pass over the assembled record list, and serializes to CSV.

Randomness is modelled by passing the sampled outcomes in explicitly: a
Draw packs, for one record, the indices consumed by the uniform and
weighted categorical choices (an arbitrary natural, reduced modulo the
support size, reaches exactly the support of each choice since every
weight in the script is positive) and the four Gaussian samples as
arbitrary rationals (a Gaussian has full support).  Python floats are
modelled as rationals; round(x, d) is modelled as rounding x*10^d to the
nearest integer (tie behaviour is immaterial to every claim below).
-/

namespace ElecBill

/-- Model of random.choice(l) (and of np.random.choice over a support
whose weights are all positive): an arbitrary index i reduced modulo the
length selects an element; the default d is unreachable for nonempty l. -/
def choiceList {α : Type} (l : List α) (i : ℕ) (d : α) : α :=
  l.getD (i % l.length) d

/-- Model of Python round(x, nd): round x*10^nd to the nearest integer,
then divide back. -/
def roundDec (nd : ℕ) (x : ℚ) : ℚ :=
  ((round (x * 10 ^ nd) : ℤ) : ℚ) / 10 ^ nd

/-- governorates list, Create_Data.py lines 14-17. -/
def governorates : List String :=
  ["Cairo", "Giza", "Alexandria", "Sharqia", "Dakahlia",
   "Beheira", "Minya", "Asyut", "Luxor", "Suez"]

/-- cities_by_gov dict, Create_Data.py lines 18-29. -/
def cities_by_gov : List (String × List String) :=
  [("Cairo", ["Nasr City", "Heliopolis", "Maadi", "Dokki", "Zamalek", "Zaytoun", "New Cairo"]),
   ("Giza", ["6th of October", "Sheikh Zayed", "Giza City", "Imbaba", "Haram"]),
   ("Alexandria", ["Sidi Gaber", "Smouha", "Stanley"]),
   ("Sharqia", ["Zagazig", "Belbeis", "Abu Hammad", "10th of Ramadan"]),
   ("Dakahlia", ["Mansoura", "Talkha", "Mit Ghamr", "Sherbin"]),
   ("Beheira", ["Damanhour", "Kafr El Dawwar"]),
   ("Minya", ["Minya City", "Beni Mazar", "Maghagha"]),
   ("Asyut", ["Asyut City", "Manfalut", "Abnoub"]),
   ("Luxor", ["Luxor City", "El Qurna", "Esna"]),
   ("Suez", ["Suez City", "Ain Sokhna", "El Galala"])]

/-- building_types list, Create_Data.py line 31. -/
def building_types : List String := ["Apartment", "Villa", "Office"]

/-- months = list(range(1,13)), Create_Data.py line 32. -/
def months : List ℤ := [1, 2, 3, 4, 5, 6, 7, 8, 9, 10, 11, 12]

/-- season_from_month, Create_Data.py lines 34-38. -/
def season_from_month (m : ℤ) : String :=
  if m = 12 ∨ m = 1 ∨ m = 2 then "Winter"
  else if m = 3 ∨ m = 4 ∨ m = 5 then "Spring"
  else if m = 6 ∨ m = 7 ∨ m = 8 then "Summer"
  else "Autumn"

/-- base_temp dict, Create_Data.py lines 41-44. -/
def base_temp : List (String × ℚ) :=
  [("Cairo", 25), ("Giza", 25), ("Alexandria", 22), ("Sharqia", 24), ("Dakahlia", 24),
   ("Beheira", 23), ("Minya", 27), ("Asyut", 28), ("Luxor", 30), ("Suez", 29)]

/-- base_price dict, Create_Data.py lines 47-50. -/
def base_price : List (String × ℚ) :=
  [("Cairo", 85/100), ("Giza", 82/100), ("Alexandria", 80/100), ("Sharqia", 78/100),
   ("Dakahlia", 77/100), ("Beheira", 76/100), ("Minya", 75/100), ("Asyut", 74/100),
   ("Luxor", 73/100), ("Suez", 79/100)]

/-- building_price_multiplier dict, Create_Data.py line 51. -/
def building_price_multiplier : List (String × ℚ) :=
  [("Apartment", 1), ("Villa", 115/100), ("Office", 125/100)]

/-- tax_base dict, Create_Data.py lines 54-57. -/
def tax_base : List (String × ℚ) :=
  [("Cairo", 14/100), ("Giza", 12/100), ("Alexandria", 13/100), ("Sharqia", 11/100),
   ("Dakahlia", 10/100), ("Beheira", 10/100), ("Minya", 9/100), ("Asyut", 8/100),
   ("Luxor", 7/100), ("Suez", 12/100)]

/-- seasonal_adjust dict literal, Create_Data.py line 75. -/
def seasonal_adjust_table : List (String × ℚ) :=
  [("Winter", -6), ("Spring", 0), ("Summer", 6), ("Autumn", 0)]

/-- The random outcomes consumed while generating one record, in the
order the script draws them (loop body, Create_Data.py lines 60-97). -/
structure Draw where
  govIdx : ℕ
  cityIdx : ℕ
  btypeIdx : ℕ
  roomsIdx : ℕ
  monthIdx : ℕ
  /-- sample of np.random.normal(0,2) added to temperature -/
  tempNoise : ℚ
  /-- sample of np.random.normal(0,0.03) in the price factor -/
  priceNoise : ℚ
  /-- sample of np.random.normal(0,0.05) in the tax factor -/
  taxNoise : ℚ
  /-- sample of np.random.normal(1,0.12) multiplying consumption -/
  consumNoise : ℚ
  deriving DecidableEq, Repr

/-- One output record; every column is nullable in the DataFrame, so
every field is an Option.  Generation fills all fields with some. -/
structure Record where
  governorate : Option String
  building_type : Option String
  rooms : Option ℤ
  season : Option String
  month : Option ℤ
  city : Option String
  temperature : Option ℚ
  price_per_kwh : Option ℚ
  tax_rate : Option ℚ
  consumption_kwh : Option ℚ
  bill_amount : Option ℚ
  deriving DecidableEq, Repr

/-- gov = random.choice(governorates), line 61. -/
def govOf (d : Draw) : String := choiceList governorates d.govIdx ""

/-- The city list owned by a governorate: cities_by_gov[gov]. -/
def cityListOf (gov : String) : List String :=
  (List.lookup gov cities_by_gov).getD []

/-- city = random.choice(cities_by_gov[gov]), line 62. -/
def cityOf (d : Draw) : String := choiceList (cityListOf (govOf d)) d.cityIdx ""

/-- btype = random.choices(building_types, weights=[0.7,0.15,0.15])[0],
line 63; all three weights are positive, so the support is the whole
list. -/
def btypeOf (d : Draw) : String := choiceList building_types d.btypeIdx ""

/-- The support of the category-specific rooms draw, lines 65-70:
np.random.choice(range(1,6), ...) for Apartment, range(3,10) for Villa,
range(1,8) otherwise; every probability in the three p-vectors is
positive, so each support is the full range. -/
def roomsSupport (btype : String) : List ℤ :=
  if btype = "Apartment" then [1, 2, 3, 4, 5]
  else if btype = "Villa" then [3, 4, 5, 6, 7, 8, 9]
  else [1, 2, 3, 4, 5, 6, 7]

/-- rooms, lines 65-70. -/
def roomsOf (d : Draw) : ℤ := choiceList (roomsSupport (btypeOf d)) d.roomsIdx 0

/-- month = random.choice(months), line 71. -/
def monthOf (d : Draw) : ℤ := choiceList months d.monthIdx 0

/-- season = season_from_month(month), line 72. -/
def seasonOf (d : Draw) : String := season_from_month (monthOf d)

/-- temp = base_temp[gov] + seasonal_adjust + np.random.normal(0,2),
lines 74-76 (value before rounding). -/
def tempRaw (d : Draw) : ℚ :=
  (List.lookup (govOf d) base_temp).getD 0
    + (List.lookup (seasonOf d) seasonal_adjust_table).getD 0
    + d.tempNoise

/-- price = base_price[gov] * building_price_multiplier[btype]
* (1 + np.random.normal(0,0.03)), line 78 (value before rounding). -/
def priceRaw (d : Draw) : ℚ :=
  (List.lookup (govOf d) base_price).getD 0
    * (List.lookup (btypeOf d) building_price_multiplier).getD 0
    * (1 + d.priceNoise)

/-- tax = tax_base[gov] * (1 + np.random.normal(0,0.05)), line 79
(value before rounding). -/
def taxRaw (d : Draw) : ℚ :=
  (List.lookup (govOf d) tax_base).getD 0 * (1 + d.taxNoise)

/-- base_cons, lines 82-87. -/
def baseConsOf (d : Draw) : ℚ :=
  if btypeOf d = "Apartment" then 100 + 60 * (roomsOf d : ℚ)
  else if btypeOf d = "Villa" then 250 + 90 * (roomsOf d : ℚ)
  else 300 + 50 * (roomsOf d : ℚ)

/-- season_factor, lines 89-93 (computed from the unrounded temp). -/
def seasonFactorOf (d : Draw) : ℚ :=
  if seasonOf d = "Summer" then 1 + max 0 (tempRaw d - 28) * (2/100)
  else if seasonOf d = "Winter" then 1 + max 0 (18 - tempRaw d) * (2/100)
  else 1

/-- consum = max(20, base_cons * season_factor * np.random.normal(1,0.12)),
lines 95-96 (value before rounding). -/
def consumRaw (d : Draw) : ℚ :=
  max 20 (baseConsOf d * seasonFactorOf d * d.consumNoise)

/-- bill = consum * price * (1 + tax), line 98, computed from the
unrounded consum, price and tax. -/
def billRaw (d : Draw) : ℚ :=
  consumRaw d * priceRaw d * (1 + taxRaw d)

/-- The dict appended to rows, Create_Data.py lines 99-111: every field
populated, the numeric ones rounded to 2 or 4 decimals. -/
def makeRecord (d : Draw) : Record :=
  { governorate := some (govOf d)
    building_type := some (btypeOf d)
    rooms := some (roomsOf d)
    season := some (seasonOf d)
    month := some (monthOf d)
    city := some (cityOf d)
    temperature := some (roundDec 2 (tempRaw d))
    price_per_kwh := some (roundDec 4 (priceRaw d))
    tax_rate := some (roundDec 4 (taxRaw d))
    consumption_kwh := some (roundDec 2 (consumRaw d))
    bill_amount := some (roundDec 2 (billRaw d)) }

/-- The missingness pass on one record at 1-based position p = idx + 1,
Create_Data.py lines 116-130: seven independent if-statements, each
nulling one field of the row when its modulus divides p. -/
def applyMissing (p : ℕ) (r : Record) : Record :=
  let r1 := if p % 300 = 0 then { r with month := none } else r
  let r2 := if p % 120 = 0 then { r1 with season := none } else r1
  let r3 := if p % 1000 = 0 then { r2 with temperature := none } else r2
  let r4 := if p % 1500 = 0 then { r3 with price_per_kwh := none } else r3
  let r5 := if p % 200 = 0 then { r4 with city := none } else r4
  let r6 := if p % 70 = 0 then { r5 with building_type := none } else r5
  if p % 500 = 0 then { r6 with consumption_kwh := none } else r6

/-- The generation loop, lines 60-111: rows as a list in generation
order, the i-th (0-based) record generated from the i-th draw. -/
def generateRows (ds : ℕ → Draw) (m : ℕ) : List Record :=
  (List.range m).map (fun i => makeRecord (ds i))

/-- The missingness loop over df.index, lines 116-130, carrying the
0-based index: position idx + 1 is used by every rule. -/
def applyMissingFrom : ℕ → List Record → List Record
  | _, [] => []
  | k, r :: rs => applyMissing (k + 1) r :: applyMissingFrom (k + 1) rs

/-- The full missingness pass over the DataFrame (index starts at 0). -/
def applyMissingAll (rs : List Record) : List Record := applyMissingFrom 0 rs

/-- The final record list: generation followed by the missingness pass. -/
def finalRows (ds : ℕ → Draw) (m : ℕ) : List Record :=
  applyMissingAll (generateRows ds m)

/-- The header line produced by df.to_csv(index=False), line 133: the
eleven dict keys in insertion order, comma-separated. -/
def csvHeader : String :=
  "governorate,building_type,rooms,season,month,city,temperature,price_per_kwh,tax_rate,consumption_kwh,bill_amount"

/-- CSV cell for a nullable value: a null (NaN in the DataFrame) is
written as the empty string by to_csv, a present value by its text. -/
def renderOpt {α : Type} (f : α → String) : Option α → String
  | none => ""
  | some x => f x

/-- The eleven cells of one CSV data row, in column order.  The exact
decimal text of a float is abstracted by toString; the claims below
depend only on the header text, the row structure and nulls rendering
as empty. -/
def cellsOf (r : Record) : List String :=
  [renderOpt id r.governorate,
   renderOpt id r.building_type,
   renderOpt toString r.rooms,
   renderOpt id r.season,
   renderOpt toString r.month,
   renderOpt id r.city,
   renderOpt toString r.temperature,
   renderOpt toString r.price_per_kwh,
   renderOpt toString r.tax_rate,
   renderOpt toString r.consumption_kwh,
   renderOpt toString r.bill_amount]

/-- One CSV data row. -/
def renderRecord (r : Record) : String := String.intercalate "," (cellsOf r)

/-- The lines of the file written by df.to_csv(out_path, index=False),
lines 132-133.  A DataFrame built from a nonempty rows list has the
eleven dict keys as columns, so the header line precedes one line per
record in generation order; a DataFrame built from an empty list has no
columns and serializes as a single empty line. -/
def csvLines (ds : ℕ → Draw) (m : ℕ) : List String :=
  match finalRows ds m with
  | [] => [""]
  | rs => csvHeader :: rs.map renderRecord

/-- The rows shown by print(df.head(10)), line 136. -/
def previewRows (ds : ℕ → Draw) (m : ℕ) : List Record :=
  (finalRows ds m).take 10

/-- Every one of the eleven fields of the record is non-null. -/
def allFieldsSome (r : Record) : Prop :=
  r.governorate ≠ none ∧ r.building_type ≠ none ∧ r.rooms ≠ none
    ∧ r.season ≠ none ∧ r.month ≠ none ∧ r.city ≠ none
    ∧ r.temperature ≠ none ∧ r.price_per_kwh ≠ none ∧ r.tax_rate ≠ none
    ∧ r.consumption_kwh ≠ none ∧ r.bill_amount ≠ none

instance (r : Record) : Decidable (allFieldsSome r) := by
  unfold allFieldsSome; infer_instance

/-- The seed passed to random.seed and np.random.seed, lines 9-10. -/
def defaultSeed : ℕ := 42

/-- n = 30000, line 12: the record count set at the top of the script. -/
def default_n : ℕ := 30000

/-- Modelled from the spec: the seeded pseudo-random stream.  The
Mersenne-Twister generators behind random.seed(42) and np.random.seed(42)
live in the Python standard library and numpy, outside this repository;
per the spec's seeding requirement the whole stream of sampled outcomes
is a deterministic function of the seed, which is all the development
uses — the concrete values below are an arbitrary such function. -/
def seededDraws (seed : ℕ) : ℕ → Draw := fun i =>
  { govIdx := seed + i, cityIdx := seed + 2 * i, btypeIdx := seed + 3 * i,
    roomsIdx := seed + 5 * i, monthIdx := seed + 7 * i,
    tempNoise := 0, priceNoise := 0, taxNoise := 0, consumNoise := 1 }

/-- One run of the script body for a given draw stream and a record
count.  The source never validates n: for i in range(n) is empty when
n is non-positive (Int.toNat), and no error is ever raised on the count
path, so the Except error case is unreachable by construction. -/
def runScript (ds : ℕ → Draw) (count : ℤ) : Except String (List String) :=
  Except.ok (csvLines ds count.toNat)

/-- A run with everything the script consumes determined by the seed. -/
def runWithSeed (seed : ℕ) (count : ℤ) : Except String (List String) :=
  runScript (seededDraws seed) count

/-- A run in an arbitrary ambient environment: the script reads nothing
from its surroundings (no time, no input, no files), so the environment
is a phantom parameter the result cannot depend on. -/
def runInEnv (env : ℕ) (seed : ℕ) (count : ℤ) : Except String (List String) :=
  runWithSeed seed count

/-- A concrete draw used to instantiate witnesses: first governorate,
first city, first building type, first rooms choice, first month, all
noise terms at their Gaussian means. -/
def sampleDraw : Draw :=
  { govIdx := 0, cityIdx := 0, btypeIdx := 0, roomsIdx := 0, monthIdx := 0,
    tempNoise := 0, priceNoise := 0, taxNoise := 0, consumNoise := 1 }

/-- The seven if-statements of the pass commute into one simultaneous
update because they touch pairwise distinct fields. -/
theorem applyMissing_eq (p : ℕ) (r : Record) :
    applyMissing p r =
      { r with
        month := if p % 300 = 0 then none else r.month
        season := if p % 120 = 0 then none else r.season
        temperature := if p % 1000 = 0 then none else r.temperature
        price_per_kwh := if p % 1500 = 0 then none else r.price_per_kwh
        city := if p % 200 = 0 then none else r.city
        building_type := if p % 70 = 0 then none else r.building_type
        consumption_kwh := if p % 500 = 0 then none else r.consumption_kwh } := by
  unfold applyMissing
  split_ifs <;> rfl

theorem applyMissing_month (p : ℕ) (r : Record) :
    (applyMissing p r).month = if p % 300 = 0 then none else r.month := by
  rw [applyMissing_eq]

theorem applyMissing_season (p : ℕ) (r : Record) :
    (applyMissing p r).season = if p % 120 = 0 then none else r.season := by
  rw [applyMissing_eq]

theorem applyMissing_temperature (p : ℕ) (r : Record) :
    (applyMissing p r).temperature = if p % 1000 = 0 then none else r.temperature := by
  rw [applyMissing_eq]

theorem applyMissing_price (p : ℕ) (r : Record) :
    (applyMissing p r).price_per_kwh = if p % 1500 = 0 then none else r.price_per_kwh := by
  rw [applyMissing_eq]

theorem applyMissing_city (p : ℕ) (r : Record) :
    (applyMissing p r).city = if p % 200 = 0 then none else r.city := by
  rw [applyMissing_eq]

theorem applyMissing_btype (p : ℕ) (r : Record) :
    (applyMissing p r).building_type = if p % 70 = 0 then none else r.building_type := by
  rw [applyMissing_eq]

theorem applyMissing_consumption (p : ℕ) (r : Record) :
    (applyMissing p r).consumption_kwh = if p % 500 = 0 then none else r.consumption_kwh := by
  rw [applyMissing_eq]

theorem applyMissing_governorate (p : ℕ) (r : Record) :
    (applyMissing p r).governorate = r.governorate := by
  rw [applyMissing_eq]

theorem applyMissing_rooms (p : ℕ) (r : Record) :
    (applyMissing p r).rooms = r.rooms := by
  rw [applyMissing_eq]

theorem applyMissing_tax (p : ℕ) (r : Record) :
    (applyMissing p r).tax_rate = r.tax_rate := by
  rw [applyMissing_eq]

theorem applyMissing_bill (p : ℕ) (r : Record) :
    (applyMissing p r).bill_amount = r.bill_amount := by
  rw [applyMissing_eq]

theorem ite_none_eq_none_iff {α : Type} (c : Prop) [Decidable c] (x : α) :
    (if c then none else some x) = none ↔ c := by
  split_ifs with h <;> simp [h]

/-- Claim C1: for every generated record the stored bill_amount is the
2-decimal rounding of consum * price * (1 + tax) computed from the
pre-rounding values, whose 2/4-decimal roundings are exactly the stored
consumption_kwh, price_per_kwh and tax_rate fields; and the missingness
pass at any position leaves the stored bill_amount unchanged. -/
theorem bill_frozen_before_missingness (d : Draw) (p : ℕ) :
    (makeRecord d).bill_amount
        = some (roundDec 2 (consumRaw d * priceRaw d * (1 + taxRaw d)))
      ∧ (makeRecord d).consumption_kwh = some (roundDec 2 (consumRaw d))
      ∧ (makeRecord d).price_per_kwh = some (roundDec 4 (priceRaw d))
      ∧ (makeRecord d).tax_rate = some (roundDec 4 (taxRaw d))
      ∧ (applyMissing p (makeRecord d)).bill_amount = (makeRecord d).bill_amount :=
  ⟨rfl, rfl, rfl, rfl, applyMissing_bill p (makeRecord d)⟩

/-- Claim C2: on a freshly generated record at 1-based position p, the
missingness pass nulls month iff 300 divides p, season iff 120 divides p,
temperature iff 1000 divides p, price_per_kwh iff 1500 divides p, city
iff 200 divides p, building_type iff 70 divides p, and consumption_kwh
iff 500 divides p; the rules are independent, so they stack whenever
several moduli divide the same position. -/
theorem missingness_rules (d : Draw) (p : ℕ) :
    ((applyMissing p (makeRecord d)).month = none ↔ 300 ∣ p)
      ∧ ((applyMissing p (makeRecord d)).season = none ↔ 120 ∣ p)
      ∧ ((applyMissing p (makeRecord d)).temperature = none ↔ 1000 ∣ p)
      ∧ ((applyMissing p (makeRecord d)).price_per_kwh = none ↔ 1500 ∣ p)
      ∧ ((applyMissing p (makeRecord d)).city = none ↔ 200 ∣ p)
      ∧ ((applyMissing p (makeRecord d)).building_type = none ↔ 70 ∣ p)
      ∧ ((applyMissing p (makeRecord d)).consumption_kwh = none ↔ 500 ∣ p) := by
  refine ⟨?_, ?_, ?_, ?_, ?_, ?_, ?_⟩ <;>
    simp only [applyMissing_month, applyMissing_season, applyMissing_temperature,
      applyMissing_price, applyMissing_city, applyMissing_btype,
      applyMissing_consumption, makeRecord, ite_none_eq_none_iff,
      Nat.dvd_iff_mod_eq_zero]

/-- Claim C7: the missingness pass never changes the governorate, rooms,
tax_rate or bill_amount field of any record, at any position. -/
theorem missingness_frame (p : ℕ) (r : Record) :
    (applyMissing p r).governorate = r.governorate
      ∧ (applyMissing p r).rooms = r.rooms
      ∧ (applyMissing p r).tax_rate = r.tax_rate
      ∧ (applyMissing p r).bill_amount = r.bill_amount :=
  ⟨applyMissing_governorate p r, applyMissing_rooms p r,
   applyMissing_tax p r, applyMissing_bill p r⟩

theorem roundDec_two_ge_twenty (x : ℚ) (h : 20 ≤ x) : 20 ≤ roundDec 2 x := by
  have h1 : (2000 : ℤ) ≤ round (x * 10 ^ 2) := by
    rw [round_eq, Int.le_floor]
    push_cast
    linarith
  have h2 : (2000 : ℚ) ≤ ((round (x * 10 ^ 2) : ℤ) : ℚ) := by exact_mod_cast h1
  unfold roundDec
  rw [le_div_iff₀ (by norm_num : (0 : ℚ) < 10 ^ 2)]
  linarith

theorem choiceList_mem {α : Type} (l : List α) (i : ℕ) (d : α) (h : l ≠ []) :
    choiceList l i d ∈ l := by
  have hlen : 0 < l.length := List.length_pos.mpr h
  have h2 : i % l.length < l.length := Nat.mod_lt _ hlen
  unfold choiceList
  rw [List.getD_eq_get?, List.get?_eq_get h2]
  exact List.get_mem l _ h2

theorem govOf_mem (d : Draw) : govOf d ∈ governorates :=
  choiceList_mem governorates d.govIdx "" (by simp [governorates])

theorem cityListOf_ne_nil : ∀ g ∈ governorates, cityListOf g ≠ [] := by decide

/-- Claim C5: consumption is floor-clamped to 20 before rounding, the
stored consumption_kwh is the 2-decimal rounding of that clamped value,
and whenever the final (post-missingness) consumption_kwh is non-null it
is at least 20. -/
theorem consumption_floor_clamp (d : Draw) (p : ℕ) (q : ℚ)
    (h : (applyMissing p (makeRecord d)).consumption_kwh = some q) :
    20 ≤ consumRaw d
      ∧ (makeRecord d).consumption_kwh = some (roundDec 2 (consumRaw d))
      ∧ 20 ≤ q := by
  have hc : 20 ≤ consumRaw d := le_max_left _ _
  refine ⟨hc, rfl, ?_⟩
  rw [applyMissing_consumption] at h
  by_cases h5 : p % 500 = 0
  · simp [h5] at h
  · simp only [h5, if_false, makeRecord, Option.some.injEq] at h
    rw [← h]
    exact roundDec_two_ge_twenty _ hc

/-- Claim C6: the sampled city always belongs to the city list owned by
the record's sampled governorate, and whenever the city survives the
missingness pass the stored pair still satisfies this ownership. -/
theorem city_referential_integrity (d : Draw) (p : ℕ) (c : String)
    (h : (applyMissing p (makeRecord d)).city = some c) :
    cityOf d ∈ cityListOf (govOf d)
      ∧ (makeRecord d).city = some (cityOf d)
      ∧ (makeRecord d).governorate = some (govOf d)
      ∧ c ∈ cityListOf (govOf d) := by
  have hmem : cityOf d ∈ cityListOf (govOf d) :=
    choiceList_mem _ d.cityIdx "" (cityListOf_ne_nil _ (govOf_mem d))
  refine ⟨hmem, rfl, rfl, ?_⟩
  rw [applyMissing_city] at h
  by_cases h2 : p % 200 = 0
  · simp [h2] at h
  · simp only [h2, if_false, makeRecord, Option.some.injEq] at h
    rw [← h]
    exact hmem

theorem roomsSupport_ne_nil (b : String) : roomsSupport b ≠ [] := by
  unfold roomsSupport
  split_ifs <;> simp

theorem roomsSupport_ge_one (b : String) (x : ℤ) (hx : x ∈ roomsSupport b) :
    1 ≤ x := by
  unfold roomsSupport at hx
  split_ifs at hx <;> (simp at hx; omega)

/-- Claim C8: every record's room count lies in the support of its
building category (Apartment 1-5, Villa 3-9, Office 1-7), is at least 1,
and survives the missingness pass unchanged, so the bound holds whether
or not building_type is later nulled. -/
theorem rooms_in_category_range (d : Draw) (p : ℕ) :
    (applyMissing p (makeRecord d)).rooms = some (roomsOf d)
      ∧ roomsOf d ∈ roomsSupport (btypeOf d)
      ∧ btypeOf d ∈ building_types
      ∧ roomsSupport "Apartment" = [1, 2, 3, 4, 5]
      ∧ roomsSupport "Villa" = [3, 4, 5, 6, 7, 8, 9]
      ∧ roomsSupport "Office" = [1, 2, 3, 4, 5, 6, 7]
      ∧ 1 ≤ roomsOf d := by
  have hmem : roomsOf d ∈ roomsSupport (btypeOf d) :=
    choiceList_mem _ d.roomsIdx 0 (roomsSupport_ne_nil _)
  refine ⟨?_, hmem, ?_, by decide, by decide, by decide, roomsSupport_ge_one _ _ hmem⟩
  · rw [applyMissing_rooms]; rfl
  · exact choiceList_mem building_types d.btypeIdx "" (by simp [building_types])

theorem applyMissingFrom_length (k : ℕ) (rs : List Record) :
    (applyMissingFrom k rs).length = rs.length := by
  induction rs generalizing k with
  | nil => rfl
  | cons r rs ih => simp [applyMissingFrom, ih]

theorem applyMissingFrom_getElem? (rs : List Record) (k i : ℕ) :
    (applyMissingFrom k rs)[i]? = (rs[i]?).map (applyMissing (k + i + 1)) := by
  induction rs generalizing k i with
  | nil => simp [applyMissingFrom]
  | cons r rs ih =>
    cases i with
    | zero => simp [applyMissingFrom]
    | succ j =>
      simp only [applyMissingFrom, List.getElem?_cons_succ, ih (k + 1) j]
      have hkj : k + 1 + j + 1 = k + (j + 1) + 1 := by omega
      rw [hkj]

theorem finalRows_length (ds : ℕ → Draw) (m : ℕ) :
    (finalRows ds m).length = m := by
  unfold finalRows applyMissingAll generateRows
  rw [applyMissingFrom_length]
  simp

theorem finalRows_getElem? (ds : ℕ → Draw) (m i : ℕ) (h : i < m) :
    (finalRows ds m)[i]? = some (applyMissing (i + 1) (makeRecord (ds i))) := by
  unfold finalRows applyMissingAll generateRows
  rw [applyMissingFrom_getElem?, List.getElem?_map, List.getElem?_range h]
  simp

theorem applyMissing_id_of_low (p : ℕ) (h1 : 1 ≤ p) (h2 : p ≤ 69) (r : Record) :
    applyMissing p r = r := by
  have h300 : ¬ p % 300 = 0 := by omega
  have h120 : ¬ p % 120 = 0 := by omega
  have h1000 : ¬ p % 1000 = 0 := by omega
  have h1500 : ¬ p % 1500 = 0 := by omega
  have h200 : ¬ p % 200 = 0 := by omega
  have h70 : ¬ p % 70 = 0 := by omega
  have h500 : ¬ p % 500 = 0 := by omega
  rw [applyMissing_eq, if_neg h300, if_neg h120, if_neg h1000, if_neg h1500,
    if_neg h200, if_neg h70, if_neg h500]

theorem makeRecord_allSome (d : Draw) : allFieldsSome (makeRecord d) := by
  simp [allFieldsSome, makeRecord]

/-- Claim C10: the smallest modulus of the missingness pass is 70, so at
any 1-based position from 1 to 69 the pass is the identity and a freshly
generated record keeps all eleven fields non-null; in particular every
record of the 10-row console preview is fully populated. -/
theorem preview_fully_populated (ds : ℕ → Draw) (m p : ℕ) (d : Draw) (r : Record)
    (h1 : 1 ≤ p) (h2 : p ≤ 69) (hr : r ∈ previewRows ds m) :
    allFieldsSome (applyMissing p (makeRecord d)) ∧ allFieldsSome r := by
  constructor
  · rw [applyMissing_id_of_low p h1 h2]
    exact makeRecord_allSome d
  · unfold previewRows at hr
    rw [List.mem_iff_getElem?] at hr
    obtain ⟨i, hi⟩ := hr
    have hlen : i < ((finalRows ds m).take 10).length := (List.getElem?_eq_some.mp hi).1
    rw [List.length_take, finalRows_length] at hlen
    have hi10 : i < 10 := by omega
    have him : i < m := by omega
    rw [List.getElem?_take_of_lt hi10, finalRows_getElem? ds m i him] at hi
    have hr2 : applyMissing (i + 1) (makeRecord (ds i)) = r := by injection hi
    rw [← hr2, applyMissing_id_of_low (i + 1) (by omega) (by omega)]
    exact makeRecord_allSome _

theorem preview_sample :
    previewRows (fun _ => sampleDraw) 1 = [makeRecord sampleDraw] := by
  have h1 : applyMissing 1 (makeRecord sampleDraw) = makeRecord sampleDraw :=
    applyMissing_id_of_low 1 (by norm_num) (by norm_num) (makeRecord sampleDraw)
  unfold previewRows finalRows applyMissingAll generateRows
  rw [show List.range 1 = [0] from rfl, List.map_singleton]
  rw [show applyMissingFrom 0 [makeRecord sampleDraw]
        = [applyMissing 1 (makeRecord sampleDraw)] from rfl, h1]
  rfl

theorem preview_fully_populated_witness :
    allFieldsSome (applyMissing 1 (makeRecord sampleDraw))
      ∧ allFieldsSome (makeRecord sampleDraw) :=
  preview_fully_populated (fun _ => sampleDraw) 1 1 sampleDraw
    (makeRecord sampleDraw) (by norm_num) (by norm_num)
    (by rw [preview_sample]; exact List.mem_singleton.mpr rfl)

theorem csvLines_of_pos (ds : ℕ → Draw) (m : ℕ) (h : 1 ≤ m) :
    csvLines ds m = csvHeader :: (finalRows ds m).map renderRecord := by
  have hne : finalRows ds m ≠ [] := by
    have hle := finalRows_length ds m
    intro hnil
    rw [hnil] at hle
    simp at hle
    omega
  unfold csvLines
  cases hfr : finalRows ds m with
  | nil => exact absurd hfr hne
  | cons a as => rfl

/-- Claim C9: for any positive record count m the serialized file has
m + 1 lines: first the exact specified header, then one rendered row per
record in generation order; every cell renderer maps a null to the empty
string, and each row has exactly eleven cells. -/
theorem csv_output_shape (ds : ℕ → Draw) (m : ℕ) (h : 1 ≤ m) :
    (csvLines ds m).length = m + 1
      ∧ (csvLines ds m)[0]? = some csvHeader
      ∧ (∀ i, i < m → (csvLines ds m)[i + 1]?
          = some (renderRecord (applyMissing (i + 1) (makeRecord (ds i)))))
      ∧ csvHeader = "governorate,building_type,rooms,season,month,city,temperature,price_per_kwh,tax_rate,consumption_kwh,bill_amount"
      ∧ (∀ r : Record, (cellsOf r).length = 11)
      ∧ renderOpt (id : String → String) none = ""
      ∧ renderOpt (toString : ℤ → String) none = ""
      ∧ renderOpt (toString : ℚ → String) none = "" := by
  rw [csvLines_of_pos ds m h]
  refine ⟨?_, by simp, ?_, rfl, fun r => rfl, rfl, rfl, rfl⟩
  · simp [finalRows_length]
  · intro i hi
    rw [List.getElem?_cons_succ, List.getElem?_map, finalRows_getElem? ds m i hi]
    rfl

theorem csv_output_shape_witness :
    (csvLines (fun _ => sampleDraw) 1).length = 1 + 1 :=
  (csv_output_shape (fun _ => sampleDraw) 1 (by decide)).1

/-- Claim C3: the output is a pure function of the seed and the record
count — two runs with the same seed and count agree whatever their
ambient environments, the run result equals an explicit function of seed
and count, and the defaults fixed at the top of the script are seed 42
and 30000 records.  The seeded pseudo-random stream itself is modelled
from the spec, Python's generators being outside the repository. -/
theorem generator_deterministic (env1 env2 : ℕ) (seed : ℕ) (count : ℤ) :
    runInEnv env1 seed count = runInEnv env2 seed count
      ∧ runWithSeed seed count = Except.ok (csvLines (seededDraws seed) count.toNat)
      ∧ defaultSeed = 42 ∧ default_n = 30000 :=
  ⟨rfl, rfl, rfl, rfl⟩

/-- Claim C4, counterexample: run with record count -1.  The claim says
an invalid (non-positive) record count makes the program fail fast; the
script has no validation at all, so the run succeeds (isOk), merely
generating zero records. -/
theorem no_fail_fast_counterexample :
    (runScript (fun _ => sampleDraw) (-1)).isOk = true
      ∧ generateRows (fun _ => sampleDraw) (Int.toNat (-1)) = [] :=
  ⟨rfl, rfl⟩

/-- Claim C4 as amended: the record count is the top-of-script parameter
n with default 30000; a non-positive count is not validated — the
generation loop simply runs zero times and the run completes
successfully instead of failing fast. -/
theorem record_count_no_fail_fast (ds : ℕ → Draw) (c : ℤ) (h : c ≤ 0) :
    default_n = 30000 ∧ generateRows ds c.toNat = []
      ∧ (runScript ds c).isOk = true := by
  refine ⟨rfl, ?_, rfl⟩
  rw [Int.toNat_of_nonpos h]
  rfl

theorem record_count_no_fail_fast_witness :
    default_n = 30000 ∧ generateRows (fun _ => sampleDraw) (Int.toNat (-2)) = []
      ∧ (runScript (fun _ => sampleDraw) (-2)).isOk = true :=
  record_count_no_fail_fast (fun _ => sampleDraw) (-2) (by decide)

theorem sample_consumRaw : consumRaw sampleDraw = 160 := by
  norm_num [consumRaw, baseConsOf, seasonFactorOf, tempRaw, seasonOf, monthOf,
    btypeOf, govOf, roomsOf, sampleDraw, choiceList, governorates,
    building_types, months, roomsSupport, base_temp, seasonal_adjust_table,
    season_from_month, List.lookup]

theorem sample_consumption_cell :
    (applyMissing 1 (makeRecord sampleDraw)).consumption_kwh = some 160 := by
  rw [applyMissing_consumption]
  norm_num
  show some (roundDec 2 (consumRaw sampleDraw)) = some 160
  rw [sample_consumRaw]
  norm_num [roundDec, round_eq]

theorem consumption_floor_clamp_witness :
    20 ≤ consumRaw sampleDraw
      ∧ (makeRecord sampleDraw).consumption_kwh
          = some (roundDec 2 (consumRaw sampleDraw))
      ∧ 20 ≤ (160 : ℚ) :=
  consumption_floor_clamp sampleDraw 1 160 sample_consumption_cell

theorem sample_city_cell :
    (applyMissing 1 (makeRecord sampleDraw)).city = some "Nasr City" := by
  rw [applyMissing_city]
  norm_num
  show some (cityOf sampleDraw) = some "Nasr City"
  norm_num [cityOf, cityListOf, govOf, sampleDraw, choiceList, governorates,
    cities_by_gov, List.lookup]

theorem city_referential_integrity_witness :
    cityOf sampleDraw ∈ cityListOf (govOf sampleDraw)
      ∧ (makeRecord sampleDraw).city = some (cityOf sampleDraw)
      ∧ (makeRecord sampleDraw).governorate = some (govOf sampleDraw)
      ∧ "Nasr City" ∈ cityListOf (govOf sampleDraw) :=
  city_referential_integrity sampleDraw 1 "Nasr City" sample_city_cell

end ElecBill
